import Mathlib

/-!
Shallow embedding of the orchestration core of the clash-verge control plane
(src-tauri/src/cmds.rs, src-tauri/src/main.rs, src-tauri/src/utils/resolve.rs).

Shell-facing commands from cmds.rs are embedded as pure functions from an
application state plus an oracle (the outcomes of external sidecar / network
calls) to a result, a new state, and a trace of external effects.  Errors are
plain strings, mirroring the wrap_err! macro which stringifies every error
before returning it to the shell.  The core module (Profiles, Verge, Clash)
is not part of the visible source; its store operations are modelled from the
spec where a claim depends on them, and each such definition says so in its
doc comment.
-/

namespace ClashVerge

/-- Fetch options of a profile item (update interval, user agent, proxy for
fetch).  Modelled from the spec: `fetch_options` of ProfileItem; the PrfOption
type itself lives in the core module, which is not under the visible source. -/
structure PrfOption where
  user_agent : Option String
  with_proxy : Option Bool
  update_interval : Option Nat
deriving DecidableEq, Repr

/-- Merge of stored fetch options with the options supplied to an update call
(cmds.rs line 81 calls PrfOption::merge).  Modelled from the spec: supplied
options take precedence field-wise over the stored ones. -/
def PrfOption.merge : Option PrfOption → Option PrfOption → Option PrfOption
  | none, none => none
  | some a, none => some a
  | none, some b => some b
  | some a, some b =>
      some { user_agent := match b.user_agent with | some u => some u | none => a.user_agent,
             with_proxy := match b.with_proxy with | some w => some w | none => a.with_proxy,
             update_interval := match b.update_interval with
                                | some i => some i | none => a.update_interval }

/-- One profile item.  Modelled from the spec: ProfileItem with id, kind,
name, source url, file reference, fetch options and update time; the field
names follow the uses in cmds.rs (item.itype, item.url, item.option,
item.file). -/
structure PrfItem where
  uid : Option String
  itype : Option String
  name : Option String
  url : Option String
  file : Option String
  option : Option PrfOption
  updated : Option Nat
deriving DecidableEq, Repr

/-- The profile set: ordered items, optional current selection, processing
chain.  Modelled from the spec: ProfileSet of the data model. -/
structure Profiles where
  items : List PrfItem
  current : Option String
  chain : List String
deriving DecidableEq, Repr

/-- Error message for an unknown profile id. -/
def notFoundError (uid : String) : String :=
  "NotFoundError: profile " ++ uid ++ " not found"

/-- Error message for a kind/shape violation. -/
def validationError (uid : String) : String :=
  "ValidationError: profile " ++ uid

/-- Lookup of an item by id (cmds.rs calls profiles.get_item).  Modelled from
the spec: fails with NotFoundError when the id is unknown. -/
def Profiles.get_item (ps : Profiles) (uid : String) : Except String PrfItem :=
  match ps.items.find? (fun it => it.uid == some uid) with
  | some it => Except.ok it
  | none => Except.error (notFoundError uid)

/-- Current selection accessor (profiles.get_current in cmds.rs). -/
def Profiles.get_current (ps : Profiles) : Option String :=
  ps.current

/-- Field replacement performed by a store-level update.  Modelled from the
spec: replaces the mutable fields (name, fetch options, update time) and
keeps id, kind, source url and file reference, which are stable or
immutable-after-create. -/
def mergeUpdate (old newItem : PrfItem) : PrfItem :=
  { uid := old.uid, itype := old.itype, url := old.url, file := old.file,
    name := newItem.name, option := newItem.option, updated := newItem.updated }

/-- Store-level update of an item (profiles.update_item in cmds.rs, line 85).
Modelled from the spec: replaces mutable fields of an existing item, fails
with NotFoundError when the id is unknown, and performs no fetch: it is a
pure function of the store. -/
def Profiles.update_item (ps : Profiles) (uid : String) (newItem : PrfItem) :
    Except String Profiles :=
  if ps.items.any (fun it => it.uid == some uid) then
    Except.ok { ps with
      items := ps.items.map (fun it => if it.uid == some uid then mergeUpdate it newItem else it) }
  else Except.error (notFoundError uid)

/-- Whether an item may be selected as the current profile.  Modelled from
the spec: current must reference an item of kind remote or local. -/
def selectable (it : PrfItem) : Bool :=
  it.itype == some "remote" || it.itype == some "local"

/-- Store-level selection (profiles.put_current in cmds.rs, line 104).
Modelled from the spec: NotFoundError when the id is unknown,
ValidationError when the kind is not selectable, otherwise updates current
and persists. -/
def Profiles.put_current (ps : Profiles) (uid : String) : Except String Profiles :=
  match ps.items.find? (fun it => it.uid == some uid) with
  | none => Except.error (notFoundError uid)
  | some it =>
      if selectable it then Except.ok { ps with current := some uid }
      else Except.error (validationError uid)

/-- Store-level deletion (profiles.delete_item in cmds.rs, line 151).
Modelled from the spec: removes the item, clears current when the deleted
item was current, removes the id from the chain, and returns whether the
current selection changed; NotFoundError when the id is unknown. -/
def Profiles.delete_item (ps : Profiles) (uid : String) :
    Except String (Profiles × Bool) :=
  if ps.items.any (fun it => it.uid == some uid) then
    let changed : Bool := ps.current == some uid
    Except.ok ({ items := ps.items.filter (fun it => !(it.uid == some uid)),
                 current := if changed then none else ps.current,
                 chain := ps.chain.filter (fun i => !(i == uid)) }, changed)
  else Except.error (notFoundError uid)

/-- Whether an id may appear in the chain.  Modelled from the spec: chain ids
must reference existing items of kind script or merge. -/
def chainable (ps : Profiles) (uid : String) : Bool :=
  match ps.items.find? (fun it => it.uid == some uid) with
  | some it => it.itype == some "script" || it.itype == some "merge"
  | none => false

/-- Store-level chain replacement (profiles.put_chain in cmds.rs, line 121).
Modelled from the spec: validates every id against kind and existence,
replaces the chain atomically on success, clears it when no sequence is
supplied, and reports a ValidationError otherwise, leaving the chain
unchanged.  Note that the call site in cmds.rs is a bare statement: the
command discards this validation outcome. -/
def Profiles.put_chain (ps : Profiles) (c : Option (List String)) :
    Profiles × Except String Unit :=
  let ids := c.getD []
  if ids.all (chainable ps) then ({ ps with chain := ids }, Except.ok ())
  else (ps, Except.error (validationError (String.intercalate "," ids)))

/-- System proxy record as used by cmds.rs (cur_sysproxy with a bypass
field).  Modelled from the spec: the cached view of the OS system proxy. -/
structure SysProxyConfig where
  enable : Bool
  server : String
  bypass : String
deriving DecidableEq, Repr

/-- User preferences.  Modelled from the spec: a flat mapping of nullable
settings (tun mode flag, autostart, system proxy bypass, verbosity); the
field names enable_tun_mode and system_proxy_bypass follow the uses in
cmds.rs. -/
structure VergeConfig where
  enable_tun_mode : Option Bool
  enable_auto_launch : Option Bool
  system_proxy_bypass : Option String
  verbosity : Option String
deriving DecidableEq, Repr

/-- Preferences store state: the stored configuration and the cached system
proxy view, the two fields cmds.rs reads (verge.config, verge.cur_sysproxy). -/
structure VergeState where
  config : VergeConfig
  cur_sysproxy : Option SysProxyConfig
deriving DecidableEq, Repr

/-- Option fallback used by the preferences patch. -/
def optOr {α : Type} : Option α → Option α → Option α
  | some a, _ => some a
  | none, b => b

/-- Preferences patch (verge.patch_config in cmds.rs, line 299).  Modelled
from the spec: merges the supplied nullable settings into the stored
configuration and persists the whole; the cached system proxy view is not
part of the stored configuration. -/
def VergeState.patch_config (v : VergeState) (payload : VergeConfig) : VergeState :=
  { v with config :=
      { enable_tun_mode := optOr payload.enable_tun_mode v.config.enable_tun_mode,
        enable_auto_launch := optOr payload.enable_auto_launch v.config.enable_auto_launch,
        system_proxy_bypass := optOr payload.system_proxy_bypass v.config.system_proxy_bypass,
        verbosity := optOr payload.verbosity v.config.verbosity } }

/-- External effects a command may issue, in program order: a network fetch
of a profile source url, a durable write of the profile set, a durable write
of the preferences, and the sidecar interactions (activate, enhanced
activate, tun capability toggle). -/
inductive Effect where
  | fetch (url : String)
  | persist
  | persistVerge
  | activate
  | activateEnhanced
  | tunMode (b : Bool)
deriving DecidableEq, Repr

/-- Whether an effect is a network fetch of a profile source. -/
def Effect.isFetch : Effect → Bool
  | Effect.fetch _ => true
  | _ => false

/-- Whether an effect is an interaction with the sidecar. -/
def Effect.isSidecar : Effect → Bool
  | Effect.activate => true
  | Effect.activateEnhanced => true
  | Effect.tunMode _ => true
  | _ => false

/-- The in-memory shared state a command can read or mutate: the Profile
Store and the Preferences Store.  The Sidecar Supervisor owns an external
process; interactions with it appear as effects with oracle-supplied
outcomes rather than as embedded state. -/
structure AppState where
  profiles : Profiles
  verge : VergeState
deriving DecidableEq, Repr

/-- Outcomes of the external calls a command may make: the result of
fetching a url (PrfItem::from_url), of clash.activate, of
clash.activate_enhanced, and of clash.tun_mode. -/
structure Oracle where
  fetchResult : String → Option PrfOption → Except String PrfItem
  activateResult : Except String Unit
  activateEnhancedResult : Except String Unit
  tunResult : Bool → Except String Unit

/-- Result of a shell-facing command: the value returned to the shell, the
final shared state, and the trace of external effects in program order. -/
def CmdResult : Type := Except String Unit × AppState × List Effect

/-- Type check of the update command (cmds.rs lines 67 to 78): an item whose
type is present and not remote cannot be updated, and an item without a url
cannot be updated; on success returns the url and stored options copied out
while the profile lock is held. -/
def update_profile_checked (item : PrfItem) : Except String (String × Option PrfOption) :=
  match item.itype with
  | some typ =>
      if typ = "remote" then
        match item.url with
        | none => Except.error "failed to get the item url"
        | some u => Except.ok (u, item.option)
      else Except.error ("could not update the " ++ typ ++ " profile")
  | none =>
      match item.url with
      | none => Except.error "failed to get the item url"
      | some u => Except.ok (u, item.option)

/-- The update_profile command (cmds.rs lines 56 to 94): reads the item's
url and options under the profile lock, releases the lock, fetches the
remote content, then mutates the store with the fetched item and, when the
updated item is the current selection, re-activates the sidecar. -/
def update_profile (index : String) (option : Option PrfOption) (o : Oracle)
    (s : AppState) : CmdResult :=
  match s.profiles.get_item index with
  | Except.error e => (Except.error e, s, [])
  | Except.ok item =>
    match update_profile_checked item with
    | Except.error e => (Except.error e, s, [])
    | Except.ok (url, stored) =>
      let fetch_opt := PrfOption.merge stored option
      match o.fetchResult url fetch_opt with
      | Except.error e => (Except.error e, s, [Effect.fetch url])
      | Except.ok newItem =>
        match s.profiles.update_item index newItem with
        | Except.error e => (Except.error e, s, [Effect.fetch url])
        | Except.ok p1 =>
          if some index = p1.get_current then
            match o.activateResult with
            | Except.error e =>
                (Except.error e, { s with profiles := p1 },
                 [Effect.fetch url, Effect.persist, Effect.activate])
            | Except.ok _ =>
                (Except.ok (), { s with profiles := p1 },
                 [Effect.fetch url, Effect.persist, Effect.activate])
          else (Except.ok (), { s with profiles := p1 }, [Effect.fetch url, Effect.persist])

/-- The select_profile command (cmds.rs lines 98 to 108): mutates the
current selection (which persists before returning) and then activates. -/
def select_profile (index : String) (o : Oracle) (s : AppState) : CmdResult :=
  match s.profiles.put_current index with
  | Except.error e => (Except.error e, s, [])
  | Except.ok p1 =>
    match o.activateResult with
    | Except.error e => (Except.error e, { s with profiles := p1 }, [Effect.persist, Effect.activate])
    | Except.ok _ => (Except.ok (), { s with profiles := p1 }, [Effect.persist, Effect.activate])

/-- The delete_profile command (cmds.rs lines 144 to 157): deletes the item
and re-activates the sidecar exactly when the store reports that the current
selection changed. -/
def delete_profile (index : String) (o : Oracle) (s : AppState) : CmdResult :=
  match s.profiles.delete_item index with
  | Except.error e => (Except.error e, s, [])
  | Except.ok (p1, changed) =>
    if changed then
      match o.activateResult with
      | Except.error e => (Except.error e, { s with profiles := p1 }, [Effect.persist, Effect.activate])
      | Except.ok _ => (Except.ok (), { s with profiles := p1 }, [Effect.persist, Effect.activate])
    else (Except.ok (), { s with profiles := p1 }, [Effect.persist])

/-- The change_profile_chain command (cmds.rs lines 112 to 125): replaces
the chain with a bare statement call to put_chain, discarding its outcome,
and then runs the enhanced activation, whose result is the only error the
command can report. -/
def change_profile_chain (chain : Option (List String)) (o : Oracle) (s : AppState) : CmdResult :=
  let pc := s.profiles.put_chain chain
  let tr := match pc.2 with
            | Except.ok _ => [Effect.persist, Effect.activateEnhanced]
            | Except.error _ => [Effect.activateEnhanced]
  match o.activateEnhancedResult with
  | Except.error e => (Except.error e, { s with profiles := pc.1 }, tr)
  | Except.ok _ => (Except.ok (), { s with profiles := pc.1 }, tr)

/-- The patch_verge_config command (cmds.rs lines 280 to 302): when the
payload carries a tun mode flag, first toggles the sidecar tun capability
and re-activates, returning early on failure; only afterwards patches and
persists the preferences. -/
def patch_verge_config (payload : VergeConfig) (o : Oracle) (s : AppState) : CmdResult :=
  match payload.enable_tun_mode with
  | some b =>
    match o.tunResult b with
    | Except.error e => (Except.error e, s, [Effect.tunMode b])
    | Except.ok _ =>
      match o.activateResult with
      | Except.error e => (Except.error e, s, [Effect.tunMode b, Effect.activate])
      | Except.ok _ =>
          (Except.ok (), { s with verge := s.verge.patch_config payload },
           [Effect.tunMode b, Effect.activate, Effect.persistVerge])
  | none =>
      (Except.ok (), { s with verge := s.verge.patch_config payload }, [Effect.persistVerge])

/-- The get_verge_config command (cmds.rs lines 266 to 275): returns a copy
of the stored configuration, filling the bypass field from the cached system
proxy when the stored bypass is unset and a cached record exists; the state
is read under a shared borrow and returned unchanged. -/
def get_verge_config (v : VergeState) : VergeConfig × VergeState :=
  let cfg := v.config
  let cfg2 := match cfg.system_proxy_bypass, v.cur_sysproxy with
              | none, some sp => { cfg with system_proxy_bypass := some sp.bypass }
              | _, _ => cfg
  (cfg2, v)

/-- Observable steps of the program entry point. -/
inductive MainEvent where
  | printStdout (msg : String)
  | buildApp
deriving DecidableEq, Repr

/-- The program entry point (main.rs lines 16 to 20 and onward): when the
singleton check reports failure the entry point prints a note and returns
the success status without constructing the application; otherwise it
builds and runs the application. -/
def main (singleton : Except String Unit) : Except String Unit × List MainEvent :=
  match singleton with
  | Except.error _ => (Except.ok (), [MainEvent.printStdout "app exists"])
  | Except.ok _ => (Except.ok (), [MainEvent.buildApp])

/-- The three independently locked shared resources. -/
inductive Res where
  | profile
  | sidecar
  | prefs
deriving DecidableEq, Repr

/-- Rank of a resource in the fixed global order the spec mandates: Profile
Store first, then Sidecar Supervisor, then Preferences Store. -/
def Res.rank : Res → Nat
  | Res.profile => 0
  | Res.sidecar => 1
  | Res.prefs => 2

/-- Whether a sequence of lock acquisitions respects the fixed global
order (each acquisition has strictly larger rank than the one before). -/
def lockSeqOrdered : List Res → Bool
  | [] => true
  | [_] => true
  | a :: b :: t => Nat.blt a.rank b.rank && lockSeqOrdered (b :: t)

/-- Whether, in an acquisition sequence, resource a is first acquired
strictly before resource b (both must occur). -/
def acquiresBefore (l : List Res) (a b : Res) : Bool :=
  match l.findIdx? (fun x => x == a), l.findIdx? (fun x => x == b) with
  | some i, some j => Nat.blt i j
  | _, _ => false

/-- Lock acquisitions of select_profile in source order: profiles_state at
cmds.rs line 103, clash_state at line 106. -/
def select_profile_locks : List Res := [Res.profile, Res.sidecar]

/-- Lock acquisitions of update_profile in source order: profiles_state at
cmds.rs line 64 (released at line 79), profiles_state again at line 84,
clash_state at line 89. -/
def update_profile_locks : List Res := [Res.profile, Res.profile, Res.sidecar]

/-- Lock acquisitions of delete_profile in source order: profiles_state at
cmds.rs line 149, clash_state at line 152. -/
def delete_profile_locks : List Res := [Res.profile, Res.sidecar]

/-- Lock acquisitions of change_profile_chain in source order: clash_state
at cmds.rs line 118, profiles_state at line 119. -/
def change_profile_chain_locks : List Res := [Res.sidecar, Res.profile]

/-- Lock acquisitions of enhance_profiles in source order: clash_state at
cmds.rs line 134, profiles_state at line 135. -/
def enhance_profiles_locks : List Res := [Res.sidecar, Res.profile]

/-- Lock acquisitions of restart_sidecar in source order: clash_state at
cmds.rs line 220, profiles_state at line 221. -/
def restart_sidecar_locks : List Res := [Res.sidecar, Res.profile]

/-- Lock acquisitions of patch_clash_config in source order: clash_state at
cmds.rs line 244, verge_state at line 245, profiles_state at line 246. -/
def patch_clash_config_locks : List Res := [Res.sidecar, Res.prefs, Res.profile]

/-- Lock acquisitions of patch_verge_config in source order: clash_state at
cmds.rs line 290, profiles_state at line 291 (both released at the end of
the tun block), verge_state at line 298. -/
def patch_verge_config_locks : List Res := [Res.sidecar, Res.profile, Res.prefs]

/-- Sample remote item used to evaluate the commands on concrete inputs. -/
def itemRemoteA : PrfItem :=
  { uid := some "a", itype := some "remote", name := some "A",
    url := some "http://example/config", file := some "a.yaml",
    option := none, updated := some 0 }

/-- Sample local item (no source url, not updatable). -/
def itemLocalB : PrfItem :=
  { uid := some "b", itype := some "local", name := some "B",
    url := none, file := some "b.yaml", option := none, updated := some 0 }

/-- Sample script item (chainable). -/
def itemScriptC : PrfItem :=
  { uid := some "c", itype := some "script", name := some "C",
    url := none, file := some "c.js", option := none, updated := some 0 }

/-- Sample profile store with a current remote profile and a one-element
chain. -/
def sampleProfiles : Profiles :=
  { items := [itemRemoteA, itemLocalB, itemScriptC], current := some "a", chain := ["c"] }

/-- Sample preferences state with every setting unset. -/
def sampleVerge : VergeState :=
  { config := { enable_tun_mode := none, enable_auto_launch := none,
                system_proxy_bypass := none, verbosity := none },
    cur_sysproxy := none }

/-- Sample application state. -/
def sampleState : AppState := { profiles := sampleProfiles, verge := sampleVerge }

/-- Sample fetched item, as PrfItem::from_url would return it for item a. -/
def fetchedItemA : PrfItem :=
  { uid := none, itype := some "remote", name := some "A2",
    url := some "http://example/config", file := none, option := none, updated := some 1 }

/-- Oracle in which every external call succeeds and every fetch returns the
sample fetched item. -/
def okOracle : Oracle :=
  { fetchResult := fun _ _ => Except.ok fetchedItemA,
    activateResult := Except.ok (),
    activateEnhancedResult := Except.ok (),
    tunResult := fun _ => Except.ok () }

/-- Oracle in which the sidecar rejects the activation call. -/
def failActivateOracle : Oracle :=
  { okOracle with activateResult := Except.error "ActivationError" }

/-- Oracle in which the sidecar rejects the tun capability. -/
def rejectTunOracle : Oracle :=
  { okOracle with tunResult := fun _ => Except.error "SidecarRejectedError" }

/-- Payload that only asks to enable tun mode. -/
def tunPayload : VergeConfig :=
  { enable_tun_mode := some true, enable_auto_launch := none,
    system_proxy_bypass := none, verbosity := none }

/-- C1: the claim says every shell-facing operation that needs more than one
of the three shared resources acquires their locks in the fixed global order
Profile Store, then Sidecar Supervisor, then Preferences Store, and that no
operation acquires the Sidecar Supervisor lock before the Profile Store lock
when it needs both.  The acquisition sequences taken from cmds.rs refute
this: change_profile_chain (and enhance_profiles, restart_sidecar,
patch_clash_config, patch_verge_config) acquires the Sidecar Supervisor lock
strictly before the Profile Store lock, while select_profile and
delete_profile acquire them in the opposite order, so the code follows no
fixed global order at all and the two orders invert each other. -/
theorem C1_lock_order_inversion :
    acquiresBefore change_profile_chain_locks Res.sidecar Res.profile = true ∧
    acquiresBefore select_profile_locks Res.profile Res.sidecar = true ∧
    lockSeqOrdered change_profile_chain_locks = false ∧
    lockSeqOrdered enhance_profiles_locks = false ∧
    lockSeqOrdered restart_sidecar_locks = false ∧
    lockSeqOrdered patch_clash_config_locks = false ∧
    lockSeqOrdered patch_verge_config_locks = false ∧
    lockSeqOrdered select_profile_locks = true ∧
    lockSeqOrdered delete_profile_locks = true := by
  decide

/-- C3: when the preferences patch payload carries a tun mode flag and the
sidecar call that enables the tun capability fails, the command returns that
error, the shared state (preferences configuration and cached system proxy
view included) is unchanged, and the only external effect issued is the tun
call itself: the preferences are neither patched nor persisted. -/
theorem C3_tun_failure_leaves_prefs (payload : VergeConfig) (o : Oracle) (s : AppState)
    (b : Bool) (e : String)
    (htun : payload.enable_tun_mode = some b)
    (hfail : o.tunResult b = Except.error e) :
    patch_verge_config payload o s = (Except.error e, s, [Effect.tunMode b]) := by
  unfold patch_verge_config
  simp only [htun, hfail]

/-- C3 witness: enabling tun mode against a sidecar that rejects the
capability leaves the sample state fully intact. -/
theorem C3_tun_failure_leaves_prefs_witness :
    patch_verge_config tunPayload rejectTunOracle sampleState =
      (Except.error "SidecarRejectedError", sampleState, [Effect.tunMode true]) :=
  C3_tun_failure_leaves_prefs tunPayload rejectTunOracle sampleState true
    "SidecarRejectedError" rfl rfl

/-- C8: when the singleton check fails, the entry point returns the success
status immediately, prints only a short note, and never constructs the
application. -/
theorem C8_singleton_failure_quiet_exit (e : String) :
    ClashVerge.main (Except.error e) = (Except.ok (), [MainEvent.printStdout "app exists"]) ∧
    MainEvent.buildApp ∉ (ClashVerge.main (Except.error e)).2 := by
  refine ⟨rfl, ?_⟩
  simp [ClashVerge.main]

/-- C10: reading the preferences configuration returns the stored
configuration verbatim in every field, except that the bypass field is
filled from the cached system proxy exactly when the stored bypass is unset
and a cached record exists; the stored state is returned unchanged. -/
theorem C10_get_verge_config_read_only (v : VergeState) :
    (get_verge_config v).2 = v ∧
    (get_verge_config v).1.enable_tun_mode = v.config.enable_tun_mode ∧
    (get_verge_config v).1.enable_auto_launch = v.config.enable_auto_launch ∧
    (get_verge_config v).1.verbosity = v.config.verbosity ∧
    (get_verge_config v).1.system_proxy_bypass =
      (match v.config.system_proxy_bypass, v.cur_sysproxy with
       | none, some sp => some sp.bypass
       | some bp, _ => some bp
       | none, none => none) := by
  rcases v with ⟨⟨tun, auto, byp, verb⟩, cur⟩
  cases byp <;> cases cur <;> simp [get_verge_config]

/-- C7 counterexample: the claim says the chain-changing operation reports a
validation error rather than silently accepting the chain when an id fails
validation.  On the sample state, the id ghost fails the store-level
validation (second conjunct), yet the command returns success (first
conjunct): the validation outcome is discarded at the call site. -/
theorem C7_counterexample :
    (change_profile_chain (some ["ghost"]) okOracle sampleState).1 = Except.ok () ∧
    (sampleProfiles.put_chain (some ["ghost"])).2 =
      Except.error (validationError "ghost") := by
  exact ⟨rfl, rfl⟩

/-- C7 amended: change_profile_chain applies the store-level chain
replacement but discards its validation outcome; the result it reports to
the shell is exactly the outcome of the enhanced activation, so an invalid
chain id is never reported as a validation error. -/
theorem C7_chain_result_ignores_validation (chain : Option (List String))
    (o : Oracle) (s : AppState) :
    (change_profile_chain chain o s).1 = o.activateEnhancedResult ∧
    (change_profile_chain chain o s).2.1.profiles = (s.profiles.put_chain chain).1 := by
  unfold change_profile_chain
  cases h : o.activateEnhancedResult with
  | error e => simp [h]
  | ok u => cases u; simp [h]

/-- C2: the store-level update never fetches: every effect trace of the
update command is empty or consists of a single fetch of the stored url,
optionally followed by the persisted store mutation and the re-activation
(so no network request is ever issued at or after the mutation), and any
change the command makes to the Profile Store is exactly the result of the
pure field-replacing update_item function applied to the fetched item — the
fetch is done by the command beforehand, never by the update itself. -/
theorem update_profile_get_err (index : String) (opt : Option PrfOption) (o : Oracle)
    (s : AppState) (e : String) (h : s.profiles.get_item index = Except.error e) :
    update_profile index opt o s = (Except.error e, s, []) := by
  unfold update_profile
  simp only [h]

theorem update_profile_chk_err (index : String) (opt : Option PrfOption) (o : Oracle)
    (s : AppState) (item : PrfItem) (e : String)
    (h1 : s.profiles.get_item index = Except.ok item)
    (h2 : update_profile_checked item = Except.error e) :
    update_profile index opt o s = (Except.error e, s, []) := by
  unfold update_profile
  simp only [h1, h2]

theorem update_profile_fetch_err (index : String) (opt : Option PrfOption) (o : Oracle)
    (s : AppState) (item : PrfItem) (url : String) (stored : Option PrfOption) (e : String)
    (h1 : s.profiles.get_item index = Except.ok item)
    (h2 : update_profile_checked item = Except.ok (url, stored))
    (h3 : o.fetchResult url (PrfOption.merge stored opt) = Except.error e) :
    update_profile index opt o s = (Except.error e, s, [Effect.fetch url]) := by
  unfold update_profile
  simp only [h1, h2, h3]

theorem update_profile_upd_err (index : String) (opt : Option PrfOption) (o : Oracle)
    (s : AppState) (item newItem : PrfItem) (url : String) (stored : Option PrfOption)
    (e : String)
    (h1 : s.profiles.get_item index = Except.ok item)
    (h2 : update_profile_checked item = Except.ok (url, stored))
    (h3 : o.fetchResult url (PrfOption.merge stored opt) = Except.ok newItem)
    (h4 : s.profiles.update_item index newItem = Except.error e) :
    update_profile index opt o s = (Except.error e, s, [Effect.fetch url]) := by
  unfold update_profile
  simp only [h1, h2, h3, h4]

theorem update_profile_upd_ok (index : String) (opt : Option PrfOption) (o : Oracle)
    (s : AppState) (item newItem : PrfItem) (p1 : Profiles) (url : String)
    (stored : Option PrfOption)
    (h1 : s.profiles.get_item index = Except.ok item)
    (h2 : update_profile_checked item = Except.ok (url, stored))
    (h3 : o.fetchResult url (PrfOption.merge stored opt) = Except.ok newItem)
    (h4 : s.profiles.update_item index newItem = Except.ok p1) :
    update_profile index opt o s =
      (if some index = p1.get_current then
         ((match o.activateResult with
           | Except.error e => Except.error e
           | Except.ok _ => Except.ok ()),
          { s with profiles := p1 }, [Effect.fetch url, Effect.persist, Effect.activate])
       else (Except.ok (), { s with profiles := p1 }, [Effect.fetch url, Effect.persist])) := by
  unfold update_profile
  simp only [h1, h2, h3, h4]
  by_cases h5 : some index = p1.get_current
  · rw [if_pos h5, if_pos h5]
    cases o.activateResult <;> rfl
  · rw [if_neg h5, if_neg h5]

theorem C2_update_is_pure_after_fetch (index : String) (opt : Option PrfOption)
    (o : Oracle) (s : AppState) :
    ((update_profile index opt o s).2.2 = [] ∨
     ∃ u, (update_profile index opt o s).2.2 = [Effect.fetch u] ∨
          (update_profile index opt o s).2.2 = [Effect.fetch u, Effect.persist] ∨
          (update_profile index opt o s).2.2 =
            [Effect.fetch u, Effect.persist, Effect.activate]) ∧
    ((update_profile index opt o s).2.1.profiles = s.profiles ∨
     ∃ it, s.profiles.update_item index it =
             Except.ok (update_profile index opt o s).2.1.profiles) := by
  cases h1 : s.profiles.get_item index with
  | error e =>
      rw [update_profile_get_err index opt o s e h1]
      exact ⟨Or.inl rfl, Or.inl rfl⟩
  | ok item =>
    cases h2 : update_profile_checked item with
    | error e =>
        rw [update_profile_chk_err index opt o s item e h1 h2]
        exact ⟨Or.inl rfl, Or.inl rfl⟩
    | ok pr =>
      obtain ⟨url, stored⟩ := pr
      cases h3 : o.fetchResult url (PrfOption.merge stored opt) with
      | error e =>
          rw [update_profile_fetch_err index opt o s item url stored e h1 h2 h3]
          exact ⟨Or.inr ⟨url, Or.inl rfl⟩, Or.inl rfl⟩
      | ok newItem =>
        cases h4 : s.profiles.update_item index newItem with
        | error e =>
            rw [update_profile_upd_err index opt o s item newItem url stored e h1 h2 h3 h4]
            exact ⟨Or.inr ⟨url, Or.inl rfl⟩, Or.inl rfl⟩
        | ok p1 =>
          rw [update_profile_upd_ok index opt o s item newItem p1 url stored h1 h2 h3 h4]
          by_cases h5 : some index = p1.get_current
          · rw [if_pos h5]
            exact ⟨Or.inr ⟨url, Or.inr (Or.inr rfl)⟩, Or.inr ⟨newItem, h4⟩⟩
          · rw [if_neg h5]
            exact ⟨Or.inr ⟨url, Or.inr (Or.inl rfl)⟩, Or.inr ⟨newItem, h4⟩⟩

/-- C4: when the in-store mutation of the update command succeeds but the
subsequent re-activation of the current profile fails, the command returns
the activation error and the updated store is kept: no rollback of the
mutation takes place. -/
theorem C4_update_kept_on_activation_failure (index : String) (opt : Option PrfOption)
    (o : Oracle) (s : AppState) (item newItem : PrfItem) (p1 : Profiles)
    (url : String) (stored : Option PrfOption) (e : String)
    (hget : s.profiles.get_item index = Except.ok item)
    (hchk : update_profile_checked item = Except.ok (url, stored))
    (hfetch : o.fetchResult url (PrfOption.merge stored opt) = Except.ok newItem)
    (hupd : s.profiles.update_item index newItem = Except.ok p1)
    (hcur : p1.get_current = some index)
    (hact : o.activateResult = Except.error e) :
    update_profile index opt o s =
      (Except.error e, { s with profiles := p1 },
       [Effect.fetch url, Effect.persist, Effect.activate]) := by
  unfold update_profile
  simp only [hget, hchk, hfetch, hupd, hcur, hact, if_pos]

/-- Profiles after the witness update of item a: the fetched fields are
merged into the stored item, everything else untouched. -/
def updatedProfilesA : Profiles :=
  { items := [{ uid := some "a", itype := some "remote", name := some "A2",
                url := some "http://example/config", file := some "a.yaml",
                option := none, updated := some 1 },
              itemLocalB, itemScriptC],
    current := some "a", chain := ["c"] }

/-- C4 witness: updating the current sample profile with a failing
activation returns the activation error and keeps the updated store. -/
theorem C4_update_kept_on_activation_failure_witness :
    update_profile "a" none failActivateOracle sampleState =
      (Except.error "ActivationError", { sampleState with profiles := updatedProfilesA },
       [Effect.fetch "http://example/config", Effect.persist, Effect.activate]) :=
  C4_update_kept_on_activation_failure "a" none failActivateOracle sampleState
    itemRemoteA fetchedItemA updatedProfilesA "http://example/config" none
    "ActivationError" rfl rfl rfl rfl rfl rfl

/-- Helper: a successful store-level deletion reports a change of the
current selection exactly when the deleted id was the current one. -/
theorem delete_item_changed_eq (ps : Profiles) (uid : String) (p1 : Profiles) (b : Bool)
    (h : ps.delete_item uid = Except.ok (p1, b)) :
    b = (ps.current == some uid) := by
  unfold Profiles.delete_item at h
  by_cases hex : ps.items.any (fun it => it.uid == some uid)
  · rw [if_pos hex] at h
    cases h
    rfl
  · rw [if_neg hex] at h
    cases h

/-- C5: the delete command re-activates the sidecar exactly when the store
reports that the current selection changed, and deleting an item that is
neither the current selection nor referenced by the chain triggers no
sidecar interaction at all. -/
theorem C5_delete_activation_iff_current_changed (index : String) (o : Oracle)
    (s : AppState) :
    (∀ p1 b, s.profiles.delete_item index = Except.ok (p1, b) →
       (Effect.activate ∈ (delete_profile index o s).2.2 ↔ b = true)) ∧
    (s.profiles.current ≠ some index → index ∉ s.profiles.chain →
       ∀ ef ∈ (delete_profile index o s).2.2, ef.isSidecar = false) := by
  constructor
  · intro p1 b h
    unfold delete_profile
    simp only [h]
    cases b
    · simp
    · cases ha : o.activateResult <;> simp [ha]
  · intro hcur _hchain ef hef
    cases hd : s.profiles.delete_item index with
    | error e =>
        unfold delete_profile at hef
        simp only [hd] at hef
        simp at hef
    | ok pb =>
        obtain ⟨p1, b⟩ := pb
        have hb : b = (s.profiles.current == some index) :=
          delete_item_changed_eq s.profiles index p1 b hd
        have hb0 : b = false := by
          rw [hb]
          exact beq_eq_false_iff_ne.mpr hcur
        unfold delete_profile at hef
        simp only [hd, hb0] at hef
        simp at hef
        rw [hef]
        rfl

/-- Profiles after deleting the current sample item a: the item is gone and
the current selection is cleared. -/
def deletedProfilesA : Profiles :=
  { items := [itemLocalB, itemScriptC], current := none, chain := ["c"] }

/-- C5 witness: deleting the current sample profile issues an activation,
and deleting the unrelated local profile issues no sidecar interaction. -/
theorem C5_delete_activation_witness :
    Effect.activate ∈ (delete_profile "a" okOracle sampleState).2.2 ∧
    ∀ ef ∈ (delete_profile "b" okOracle sampleState).2.2, ef.isSidecar = false :=
  ⟨((C5_delete_activation_iff_current_changed "a" okOracle sampleState).1
      deletedProfilesA true rfl).mpr rfl,
   (C5_delete_activation_iff_current_changed "b" okOracle sampleState).2
      (by decide) (by decide)⟩

/-- C6: the select command issues the activation only after the selection
mutation and its persistence have completed: on a successful mutation the
effect trace is the persistence followed by the activation, and when the
mutation fails (in particular for an unknown id) the error is returned, no
activation or persistence is issued, and the state is unchanged. -/
theorem C6_select_mutation_before_activation (index : String) (o : Oracle)
    (s : AppState) :
    (∀ e, s.profiles.put_current index = Except.error e →
       select_profile index o s = (Except.error e, s, [])) ∧
    (∀ p1, s.profiles.put_current index = Except.ok p1 →
       (select_profile index o s).2.1.profiles = p1 ∧
       (select_profile index o s).2.2 = [Effect.persist, Effect.activate]) ∧
    (s.profiles.items.find? (fun it => it.uid == some index) = none →
       select_profile index o s = (Except.error (notFoundError index), s, [])) := by
  refine ⟨?_, ?_, ?_⟩
  · intro e h
    unfold select_profile
    simp only [h]
  · intro p1 h
    unfold select_profile
    simp only [h]
    cases ha : o.activateResult <;> simp [ha]
  · intro hfind
    have h : s.profiles.put_current index = Except.error (notFoundError index) := by
      unfold Profiles.put_current
      simp only [hfind]
    unfold select_profile
    simp only [h]

/-- C6 witness: selecting an unknown id on the sample state reports the
not-found error and leaves everything untouched; selecting the sample remote
profile persists before activating. -/
theorem C6_select_mutation_witness :
    select_profile "ghost" okOracle sampleState =
      (Except.error (notFoundError "ghost"), sampleState, []) ∧
    (select_profile "a" okOracle sampleState).2.2 =
      [Effect.persist, Effect.activate] :=
  ⟨(C6_select_mutation_before_activation "ghost" okOracle sampleState).2.2 rfl,
   ((C6_select_mutation_before_activation "a" okOracle sampleState).2.1
      sampleProfiles rfl).2⟩

/-- Helper: the type and url check of the update command rejects every item
whose type field is present and not remote, and every item without a url. -/
theorem update_profile_checked_rejects (item : PrfItem)
    (h : (∃ t, item.itype = some t ∧ t ≠ "remote") ∨ item.url = none) :
    ∃ m, update_profile_checked item = Except.error m := by
  unfold update_profile_checked
  rcases h with ⟨t, ht, hne⟩ | hurl
  · simp only [ht, if_neg hne]
    exact ⟨_, rfl⟩
  · cases h2 : item.itype with
    | none =>
        simp only [h2, hurl]
        exact ⟨_, rfl⟩
    | some t =>
        by_cases ht : t = "remote"
        · simp only [h2, if_pos ht, hurl]
          exact ⟨_, rfl⟩
        · simp only [h2, if_neg ht]
          exact ⟨_, rfl⟩

/-- C9: for a stored item whose type field is present and not remote, or
whose url is absent, the update command returns an error before performing
any fetch or mutation: the effect trace is empty and the whole shared state
(Profile Store and Preferences Store; the sidecar is never contacted) is
unchanged. -/
theorem C9_update_rejects_invalid_item (index : String) (opt : Option PrfOption)
    (o : Oracle) (s : AppState) (item : PrfItem)
    (hget : s.profiles.get_item index = Except.ok item)
    (hbad : (∃ t, item.itype = some t ∧ t ≠ "remote") ∨ item.url = none) :
    ∃ msg, update_profile index opt o s = (Except.error msg, s, []) := by
  obtain ⟨m, hm⟩ := update_profile_checked_rejects item hbad
  refine ⟨m, ?_⟩
  unfold update_profile
  simp only [hget, hm]

/-- C9 witness: updating the sample local profile fails up front with an
empty effect trace and an unchanged state. -/
theorem C9_update_rejects_invalid_item_witness :
    ∃ msg, update_profile "b" none okOracle sampleState =
      (Except.error msg, sampleState, []) :=
  C9_update_rejects_invalid_item "b" none okOracle sampleState itemLocalB rfl
    (Or.inl ⟨"local", rfl, by decide⟩)

end ClashVerge
